import Mathlib

/-
Shallow embedding of `src/src/Shelly25/shelly_init.cpp` (the Shelly 2.5
device-initialization code): `PowerMeterInit`, `CreatePeripherals` and
`CreateComponents`, together with theorems about the behaviour of these
functions.

Conventions:
* `mgos::Status` return values become the inductive `Status` below.
* The outcomes of external calls that can fail (`mgos_ade7953_create`,
  `PowerMeter::Init`, component construction / `Init`) are supplied through
  explicit environment records, so each theorem quantifies over every
  possible outcome of those calls.
* Collaborators whose source is not in this repository slice
  (`CreateHAPSwitch`, `hap::CreateHAPInput`) are modelled from the spec and
  marked as such in their doc comments.
-/

namespace Shelly25

/-- Result type of fallible operations (`mgos::Status` / `Status` in the
source).  `unavailable` corresponds to `mgos::Errorf(STATUS_UNAVAILABLE, ...)`;
`otherError` stands for any other non-OK status an `Init()` call may return. -/
inductive Status where
  | ok : Status
  | unavailable : String → Status
  | otherError : String → Status
deriving DecidableEq

/-- The `.ok()` test on a status. -/
def Status.isOk : Status → Bool
  | .ok => true
  | .unavailable _ => false
  | .otherError _ => false

/-- An `ADE7953PowerMeter(id, s_ade7953, channel)` object: a logical index and
the ADE7953 chip channel it addresses.  Every meter is bound to the single
shared chip handle (`s_ade7953`), kept in `PMState`. -/
structure PowerMeter where
  id : Nat
  channel : Nat
deriving DecidableEq

/-- Outcomes of the external calls made by `PowerMeterInit`:
whether `mgos_ade7953_create` returns a non-null handle, and the statuses
returned by `pm1->Init()` and `pm2->Init()`.  The fixed float calibration
constants passed to `mgos_ade7953_create` are abstracted away (no claim
depends on them). -/
structure PMEnv where
  chipCreateOk : Bool
  pm1InitSt : Status
  pm2InitSt : Status
deriving DecidableEq

/-- State touched by `PowerMeterInit`: the process-wide static chip handle
`s_ade7953` (initially `NULL`, i.e. `none`) and the `pms` vector the caller
passes in. -/
structure PMState where
  s_ade7953 : Option Unit
  pms : List PowerMeter
deriving DecidableEq

/-- Embedding of `PowerMeterInit` (shelly_init.cpp lines 35-62):
assign `s_ade7953 := mgos_ade7953_create(...)`; if null, return
`STATUS_UNAVAILABLE`.  Otherwise construct `pm1 = ADE7953PowerMeter(1, chip, 1)`
and return early if its `Init()` fails, then `pm2 = ADE7953PowerMeter(2, chip, 0)`
with the same early return, and only then append both meters to `pms`. -/
def PowerMeterInit (env : PMEnv) (st : PMState) : PMState × Status :=
  let chip : Option Unit := if env.chipCreateOk then some () else none
  let st1 : PMState := { st with s_ade7953 := chip }
  match chip with
  | none => (st1, Status.unavailable "Failed to init ADE7953")
  | some _ =>
    let pm1 : PowerMeter := ⟨1, 1⟩
    if !env.pm1InitSt.isOk then (st1, env.pm1InitSt)
    else
      let pm2 : PowerMeter := ⟨2, 0⟩
      if !env.pm2InitSt.isOk then (st1, env.pm2InitSt)
      else ({ st1 with pms := st1.pms ++ [pm1, pm2] }, Status.ok)

/-- The state at device start-up: `s_ade7953` is the static `NULL` pointer and
no power meter has been registered yet. -/
def pmState0 : PMState := ⟨none, []⟩

/-- C3: power-meter bring-up is both-or-neither.  If chip creation fails, no
PowerMeter is registered and an Unavailable status is returned; if the chip is
created but `pm1->Init()` or `pm2->Init()` fails, no PowerMeter is registered
and that failing status is returned; if everything succeeds, exactly the two
per-channel meters are registered and the status is OK. -/
theorem C3_power_meter_both_or_neither (env : PMEnv) :
    (env.chipCreateOk = false →
      (PowerMeterInit env pmState0).1.pms = [] ∧
      (PowerMeterInit env pmState0).2 = Status.unavailable "Failed to init ADE7953") ∧
    (env.chipCreateOk = true → env.pm1InitSt.isOk = false →
      (PowerMeterInit env pmState0).1.pms = [] ∧
      (PowerMeterInit env pmState0).2 = env.pm1InitSt) ∧
    (env.chipCreateOk = true → env.pm1InitSt.isOk = true → env.pm2InitSt.isOk = false →
      (PowerMeterInit env pmState0).1.pms = [] ∧
      (PowerMeterInit env pmState0).2 = env.pm2InitSt) ∧
    (env.chipCreateOk = true → env.pm1InitSt.isOk = true → env.pm2InitSt.isOk = true →
      (PowerMeterInit env pmState0).1.pms.length = 2 ∧
      (PowerMeterInit env pmState0).2 = Status.ok) := by
  obtain ⟨c, s1, s2⟩ := env
  cases c
  all_goals simp [PowerMeterInit, pmState0]
  all_goals aesop

/-- C3 witness: with the chip created but channel 1's meter failing its
`Init`, zero meters are registered and the error is propagated. -/
theorem C3_power_meter_both_or_neither_witness :
    (PowerMeterInit ⟨true, Status.otherError "e", Status.ok⟩ pmState0).1.pms = [] ∧
    (PowerMeterInit ⟨true, Status.otherError "e", Status.ok⟩ pmState0).2 =
      Status.otherError "e" :=
  (C3_power_meter_both_or_neither ⟨true, Status.otherError "e", Status.ok⟩).2.1
    rfl rfl

/-- C9: on every successful bring-up, the logical-index-to-channel binding is
reversed: the meter with logical index 1 addresses ADE7953 channel 1 and the
meter with logical index 2 addresses channel 0. -/
theorem C9_meter_channel_binding_reversed (env : PMEnv)
    (hc : env.chipCreateOk = true) (h1 : env.pm1InitSt.isOk = true)
    (h2 : env.pm2InitSt.isOk = true) :
    (PowerMeterInit env pmState0).1.pms =
      [⟨1, 1⟩, ⟨2, 0⟩] := by
  obtain ⟨c, s1, s2⟩ := env
  simp only at hc h1 h2
  subst hc
  simp [PowerMeterInit, pmState0, h1, h2]

/-- C9 witness: a fully successful bring-up yields exactly the meters
(index 1, channel 1) and (index 2, channel 0). -/
theorem C9_meter_channel_binding_reversed_witness :
    (PowerMeterInit ⟨true, Status.ok, Status.ok⟩ pmState0).1.pms =
      [⟨1, 1⟩, ⟨2, 0⟩] :=
  C9_meter_channel_binding_reversed ⟨true, Status.ok, Status.ok⟩ rfl rfl rfl

/-- C10: if the chip is created but either meter's `Init` fails, the meter
list stays empty while the process-wide chip handle `s_ade7953` remains
created (non-null): the global handle is not rolled back. -/
theorem C10_chip_handle_not_rolled_back (env : PMEnv)
    (hc : env.chipCreateOk = true)
    (hfail : env.pm1InitSt.isOk = false ∨ env.pm2InitSt.isOk = false) :
    (PowerMeterInit env pmState0).1.pms = [] ∧
    (PowerMeterInit env pmState0).1.s_ade7953 = some () ∧
    (PowerMeterInit env pmState0).2 ≠ Status.ok := by
  obtain ⟨c, s1, s2⟩ := env
  simp only at hc
  subst hc
  rcases hfail with h | h <;>
    cases s1 <;> cases s2 <;>
    simp_all [PowerMeterInit, pmState0, Status.isOk]

/-- C10 witness: chip creation succeeds, channel 0's meter (logical index 2)
fails `Init`; no meter is registered but the chip handle exists. -/
theorem C10_chip_handle_not_rolled_back_witness :
    (PowerMeterInit ⟨true, Status.ok, Status.otherError "e"⟩ pmState0).1.pms = [] ∧
    (PowerMeterInit ⟨true, Status.ok, Status.otherError "e"⟩ pmState0).1.s_ade7953 =
      some () ∧
    (PowerMeterInit ⟨true, Status.ok, Status.otherError "e"⟩ pmState0).2 ≠
      Status.ok :=
  C10_chip_handle_not_rolled_back ⟨true, Status.ok, Status.otherError "e"⟩ rfl
    (Or.inr rfl)

/-- GPIO pull configuration (`enum mgos_gpio_pull_type`). -/
inductive GpioPull where
  | pullNone
  | pullUp
  | pullDown
deriving DecidableEq

/-- A handler attached to an input.  The only handler the factory attaches is
the reset sequence `std::bind(&HandleInputResetSequence, in1, 4, _1, _2)`;
its bound integer argument is recorded. -/
inductive Handler where
  | resetSequence (outGpioArg : Nat)
deriving DecidableEq

/-- An `InputPin(id, pin, on_value, pull, flag)` object, together with the
handlers attached to it and whether `Init()` has been called on it. -/
structure InputPin where
  id : Nat
  pin : Nat
  onValue : Nat
  pull : GpioPull
  flag : Bool
  handlers : List Handler
  initialized : Bool
deriving DecidableEq

/-- An `OutputPin(id, pin, initial_value)` object. -/
structure OutputPin where
  id : Nat
  pin : Nat
  initialValue : Nat
deriving DecidableEq

/-- The `TempSensorSDNT1608X103F3950(0, 3.3f, 33000.0f)` object; only the ADC
channel is retained (the float calibration constants are outside the model,
and no claim depends on them).  Its construction cannot fail. -/
structure TempSensor where
  adcChannel : Nat
deriving DecidableEq

/-- The four peripheral collections produced by `CreatePeripherals`. -/
structure Peripherals where
  inputs : List InputPin
  outputs : List OutputPin
  pms : List PowerMeter
  sys_temp : Option TempSensor
deriving DecidableEq

/-- Observable construction / initialization events of `CreatePeripherals`,
in the order the corresponding statements execute. -/
inductive PEvent where
  | outputNew (id pin value : Nat)
  | inputNew (id pin : Nat)
  | addHandler (inputId arg : Nat)
  | inputInit (id : Nat)
  | chipCreate (ok : Bool)
  | meterNew (id channel : Nat)
  | meterInitCall (id : Nat) (st : Status)
  | meterRegister (id : Nat)
  | logError (msg : String)
  | tempSensorNew
deriving DecidableEq

/-- Event is an `OutputPin` construction. -/
def PEvent.isOutputNew : PEvent → Bool
  | .outputNew _ _ _ => true
  | _ => false

/-- Event is an `Input::Init()` call. -/
def PEvent.isInputInit : PEvent → Bool
  | .inputInit _ => true
  | _ => false

/-- The event trace of `PowerMeterInit` (same control flow as
`PowerMeterInit` above, recording each construction and `Init` call). -/
def PowerMeterInitEvents (env : PMEnv) : List PEvent :=
  if !env.chipCreateOk then [.chipCreate false]
  else
    [.chipCreate true, .meterNew 1 1, .meterInitCall 1 env.pm1InitSt] ++
    if !env.pm1InitSt.isOk then []
    else
      [.meterNew 2 0, .meterInitCall 2 env.pm2InitSt] ++
      if !env.pm2InitSt.isOk then []
      else [.meterRegister 1, .meterRegister 2]

/-- The event trace of `CreatePeripherals` (shelly_init.cpp lines 64-87), in
statement order: the two `OutputPin` constructions, `InputPin` 1 with its
handler attachment and `Init()`, `InputPin` 2 with its `Init()`, the
`PowerMeterInit` call, an error log iff that call failed, and the TempSensor
construction. -/
def CreatePeripheralsTrace (env : PMEnv) : List PEvent :=
  [.outputNew 1 4 1, .outputNew 2 15 1,
   .inputNew 1 13, .addHandler 1 4, .inputInit 1,
   .inputNew 2 5, .inputInit 2] ++
  PowerMeterInitEvents env ++
  (if !(PowerMeterInit env pmState0).2.isOk then [.logError "Failed to init ADE7953"]
   else []) ++
  [.tempSensorNew]

/-- Embedding of `CreatePeripherals` (shelly_init.cpp lines 64-87), returning
the produced collections and the event trace.  The statement order of the
source is kept: `OutputPin(1, 4, 1)`, `OutputPin(2, 15, 1)`, then
`InputPin(1, 13, 1, MGOS_GPIO_PULL_NONE, true)` with the reset-sequence
handler bound to the integer 4 followed by its `Init()`, then
`InputPin(2, 5, 1, MGOS_GPIO_PULL_NONE, false)` and its `Init()`, then
`PowerMeterInit` whose failure is only logged, and finally the TempSensor. -/
def CreatePeripherals (env : PMEnv) : Peripherals × List PEvent :=
  let out1 : OutputPin := ⟨1, 4, 1⟩
  let out2 : OutputPin := ⟨2, 15, 1⟩
  let in1a : InputPin := ⟨1, 13, 1, .pullNone, true, [], false⟩
  let in1b : InputPin := { in1a with handlers := in1a.handlers ++ [.resetSequence 4] }
  let in1 : InputPin := { in1b with initialized := true }
  let in2a : InputPin := ⟨2, 5, 1, .pullNone, false, [], false⟩
  let in2 : InputPin := { in2a with initialized := true }
  let pmres := PowerMeterInit env pmState0
  (⟨[in1, in2], [out1, out2], pmres.1.pms, some ⟨0⟩⟩, CreatePeripheralsTrace env)

/-- Helper: the power-meter portion of the trace constructs no `OutputPin`. -/
theorem pmEvents_no_outputNew (env : PMEnv) :
    (PowerMeterInitEvents env).countP (fun e => e.isOutputNew) = 0 := by
  unfold PowerMeterInitEvents
  split_ifs <;> rfl

/-- C4: on every run of `CreatePeripherals` (any power-meter outcome), both
`OutputPin` constructions occur strictly before the first `Input::Init` call:
the trace segment before the first `inputInit` event already contains both of
the run's (exactly two) output constructions. -/
theorem C4_outputs_before_first_input_init (env : PMEnv) :
    ((CreatePeripheralsTrace env).takeWhile (fun e => !e.isInputInit)).countP
        (fun e => e.isOutputNew) = 2 ∧
    (CreatePeripheralsTrace env).countP (fun e => e.isOutputNew) = 2 := by
  refine ⟨rfl, ?_⟩
  unfold CreatePeripheralsTrace
  rw [List.countP_append, List.countP_append, List.countP_append,
    pmEvents_no_outputNew]
  have h : (if !(PowerMeterInit env pmState0).2.isOk
        then ([.logError "Failed to init ADE7953"] : List PEvent)
        else []).countP (fun e => e.isOutputNew) = 0 := by
    split <;> rfl
  rw [h]
  rfl

/-- C7: power-meter bring-up failure does not abort `CreatePeripherals`: for
every outcome, the TempSensor is constructed as the final step (the trace
always ends with `tempSensorNew` and `sys_temp` is always populated), and a
failed bring-up only adds an error-log event to the trace. -/
theorem C7_pm_failure_does_not_abort_factory (env : PMEnv) :
    (CreatePeripheralsTrace env).getLast? = some PEvent.tempSensorNew ∧
    (CreatePeripherals env).1.sys_temp = some ⟨0⟩ ∧
    ((PowerMeterInit env pmState0).2.isOk = false →
      PEvent.logError "Failed to init ADE7953" ∈ CreatePeripheralsTrace env) := by
  refine ⟨?_, rfl, ?_⟩
  · unfold CreatePeripheralsTrace
    rw [List.getLast?_append_of_ne_nil _ (by simp)]
    rfl
  · intro h
    unfold CreatePeripheralsTrace
    simp [h]

/-- C7 witness: with chip creation failing, the error is logged and the trace
still ends with the TempSensor construction. -/
theorem C7_pm_failure_does_not_abort_factory_witness :
    PEvent.logError "Failed to init ADE7953" ∈
      CreatePeripheralsTrace ⟨false, Status.ok, Status.ok⟩ :=
  (C7_pm_failure_does_not_abort_factory ⟨false, Status.ok, Status.ok⟩).2.2 rfl

/-- A fully successful power-meter environment, used as a concrete input. -/
def envAllOk : PMEnv := ⟨true, Status.ok, Status.ok⟩

/-- C8 counterexample: the reset-sequence handler is indeed attached to input
1 only, but its bound parameter is 4, and no constructed output has logical
index 4 (the outputs have logical indices 1 and 2) — the parameter is not the
logical index of the output it acts on (it is output 1's GPIO pin). -/
theorem C8_handler_param_not_logical_index :
    ((CreatePeripherals envAllOk).1.inputs.map (fun i => (i.id, i.handlers)) =
      [(1, [Handler.resetSequence 4]), (2, [])]) ∧
    ((CreatePeripherals envAllOk).1.outputs.map OutputPin.id = [1, 2]) ∧
    ((CreatePeripherals envAllOk).1.outputs.any (fun o => o.id == 4) = false) :=
  ⟨rfl, rfl, rfl⟩

/-- C8 (amended): during `CreatePeripherals` the held-reset handler is
attached to input 1 and only input 1, parameterized by the physical GPIO pin
of the output it may act on — the bound argument 4 equals output 1's pin
(outputs are (index 1, pin 4) and (index 2, pin 15)); input 2 receives no
handler. -/
theorem C8_reset_handler_on_input1_only (env : PMEnv) :
    ((CreatePeripherals env).1.inputs.map (fun i => (i.id, i.handlers)) =
      [(1, [Handler.resetSequence 4]), (2, [])]) ∧
    ((CreatePeripherals env).1.outputs.map (fun o => (o.id, o.pin)) =
      [(1, 4), (2, 15)]) :=
  ⟨rfl, rfl⟩

/-- The window-covering input wiring sub-mode (`hap::WindowCovering::InMode`,
the target of the `static_cast` of `wc_cfg->in_mode`). -/
inductive InMode where
  | separateMomentary
  | separateToggle
  | single
  | detached
deriving DecidableEq

/-- HAP accessory categories appearing in this file, plus `bridge` for the
category the pre-existing bridge-primary accessory starts with. -/
inductive HAPCategory where
  | bridge
  | windowCoverings
  | garageDoorOpeners
  | bridgedAccessory
deriving DecidableEq

/-- Services attached to accessories by `CreateComponents` and its
collaborators. -/
inductive Service where
  | accessoryInformation
  | windowCoveringSvc
  | garageDoorSvc
  | inputSvc (id : Nat)
deriving DecidableEq

/-- An `mgos::hap::Accessory`: its current category, the ordered list of
services attached to it, and how many times `SetCategory` has been invoked on
it after construction. -/
structure Accessory where
  category : HAPCategory
  services : List Service
  setCategoryCount : Nat
deriving DecidableEq

/-- The `SetCategory` member call. -/
def Accessory.setCat (a : Accessory) (c : HAPCategory) : Accessory :=
  { a with category := c, setCategoryCount := a.setCategoryCount + 1 }

/-- The `AddService` / `AddHAPService` member call (appends a service). -/
def Accessory.addService (a : Accessory) (s : Service) : Accessory :=
  { a with services := a.services ++ [s] }

/-- The kind of a `Component` created during topology resolution.  For
switches, the `to_pri_acc` argument it was created with is recorded. -/
inductive CompKind where
  | windowCovering
  | garageDoorOpener
  | hapInput (id : Nat)
  | hapSwitch (id : Nat) (toPriAcc : Bool)
deriving DecidableEq

/-- A `Component` with its `primary` flag. -/
structure Component where
  kind : CompKind
  primary : Bool
deriving DecidableEq

/-- The `wc1` configuration section read in roller-shutter mode.  `in_mode`
is kept as the `InMode` it is cast to; `swap_inputs` is the flag tested at
line 126. -/
structure WcConfig where
  in_mode : InMode
  swap_inputs : Bool
deriving DecidableEq

/-- The system-configuration values read by `CreateComponents`:
`shelly.mode`, the `wc1` section, `shelly.legacy_hap_layout`, and the two
switches' `in_mode` values (integers; 3 is the detached variant). -/
structure SysConfig where
  shelly_mode : Int
  wc1 : WcConfig
  legacy_hap_layout : Bool
  sw1_in_mode : Int
  sw2_in_mode : Int
deriving DecidableEq

/-- Outcomes of the fallible component constructions inside
`CreateComponents`: `wcOk` is true iff `new hap::WindowCovering(...)` returns
non-null and its `Init()` is OK; `gdoOk` likewise for the garage-door
opener. -/
structure CCEnv where
  wcOk : Bool
  gdoOk : Bool
deriving DecidableEq

/-- The state `CreateComponents` mutates: the process-wide component list,
the pre-existing bridge-primary accessory (`(*accs)[0]`), and the accessories
after index 0. -/
structure CCState where
  comps : List Component
  priAcc : Accessory
  extraAccs : List Accessory
deriving DecidableEq

/-- Modelled from the spec: `hap::CreateHAPInput` (its source is not in this
repository slice) exposes one pass-through input: it appends one input
component and one dedicated bridged accessory carrying that input's service
("idempotent append, never removes existing entries"). -/
def CreateHAPInput (id : Nat) (st : CCState) : CCState :=
  { st with
    comps := st.comps ++ [⟨.hapInput id, false⟩],
    extraAccs := st.extraAccs ++
      [⟨.bridgedAccessory, [.accessoryInformation, .inputSvc id], 0⟩] }

/-- Modelled from the spec: `CreateHAPSwitch` (its source is not in this
repository slice) constructs one switch Component for the given logical index
with the given `to_pri_acc` binding and appends it to the component list
("idempotent append, never removes existing entries"); its further internal
wiring is opaque to this core. -/
def CreateHAPSwitch (id : Nat) (toPriAcc : Bool) (st : CCState) : CCState :=
  { st with comps := st.comps ++ [⟨.hapSwitch id toPriAcc, false⟩] }

/-- Embedding of `CreateComponents` (shelly_init.cpp lines 89-169).
Mode 1 (roller shutter): construct the window covering; on construction or
`Init` failure return with the state untouched; otherwise mark it primary and
dispatch on the in-mode — the two separate sub-modes set the bridge-primary
accessory's category and attach the service to it; single/detached push a new
bridged accessory (information service first, then the covering service) and
expose pass-through inputs (both for detached, else input 1 if `swap_inputs`
else input 2); finally append the covering component.  Mode 2 (garage door):
analogous without sub-modes, always on the bridge-primary accessory.
Otherwise (normal mode): compute `compat_20` and create the two switches in
forward order with `to_pri_acc = false`, or — when `compat_20` holds — in
reverse order with `to_pri_acc = true` followed by reversing the component
list. -/
def CreateComponents (cfg : SysConfig) (env : CCEnv) (st : CCState) : CCState :=
  if cfg.shelly_mode = 1 then
    if !env.wcOk then st
    else
      let wc : Component := ⟨.windowCovering, true⟩
      match cfg.wc1.in_mode with
      | .separateMomentary | .separateToggle =>
        let pri := (st.priAcc.setCat .windowCoverings).addService .windowCoveringSvc
        let st1 := { st with priAcc := pri }
        { st1 with comps := st1.comps ++ [wc] }
      | .single | .detached =>
        let acc : Accessory :=
          ⟨.bridgedAccessory, [.accessoryInformation, .windowCoveringSvc], 0⟩
        let st1 := { st with extraAccs := st.extraAccs ++ [acc] }
        let st2 :=
          if cfg.wc1.in_mode = .detached then CreateHAPInput 2 (CreateHAPInput 1 st1)
          else if cfg.wc1.swap_inputs then CreateHAPInput 1 st1
          else CreateHAPInput 2 st1
        { st2 with comps := st2.comps ++ [wc] }
  else if cfg.shelly_mode = 2 then
    if !env.gdoOk then st
    else
      let gdo : Component := ⟨.garageDoorOpener, true⟩
      let pri := (st.priAcc.setCat .garageDoorOpeners).addService .garageDoorSvc
      let st1 := { st with priAcc := pri }
      { st1 with comps := st1.comps ++ [gdo] }
  else
    let compat_20 : Bool :=
      cfg.legacy_hap_layout && (cfg.sw1_in_mode != 3) && (cfg.sw2_in_mode != 3)
    if !compat_20 then
      CreateHAPSwitch 2 false (CreateHAPSwitch 1 false st)
    else
      let st1 := CreateHAPSwitch 1 true (CreateHAPSwitch 2 true st)
      { st1 with comps := st1.comps.reverse }

/-- The state `CreateComponents` starts from at device start-up: no component
yet, the bridge-primary accessory fresh (no service, no `SetCategory` call),
and no further accessory. -/
def ccState0 : CCState := ⟨[], ⟨.bridge, [], 0⟩, []⟩

/-- A component with the `to_pri_acc` binding of a switch erased, leaving the
externally observed identity. -/
def CompKind.sansToPri : CompKind → CompKind
  | .hapSwitch id _ => .hapSwitch id false
  | k => k

/-- C1: in roller-shutter mode with the window covering successfully
constructed and initialized, the exposed accessories are decided by the
wiring sub-mode: the two separate sub-modes attach the covering service to
the pre-existing bridge-primary accessory and create no new accessory;
single and detached create exactly one new bridged accessory for the
covering (information service first), and additionally detached exposes both
inputs as pass-through input accessories while single exposes exactly one —
input 1 if `swap_inputs` is set, else input 2. -/
theorem C1_roller_submode_accessory_exposure (cfg : SysConfig) (env : CCEnv)
    (st : CCState) (hm : cfg.shelly_mode = 1) (he : env.wcOk = true) :
    ((cfg.wc1.in_mode = InMode.separateMomentary ∨
        cfg.wc1.in_mode = InMode.separateToggle) →
      CreateComponents cfg env st =
        { st with
            comps := st.comps ++ [⟨.windowCovering, true⟩],
            priAcc := { st.priAcc with
              category := .windowCoverings,
              services := st.priAcc.services ++ [.windowCoveringSvc],
              setCategoryCount := st.priAcc.setCategoryCount + 1 } }) ∧
    (cfg.wc1.in_mode = InMode.single →
      CreateComponents cfg env st =
        { st with
            comps := st.comps ++
              [⟨.hapInput (if cfg.wc1.swap_inputs then 1 else 2), false⟩,
               ⟨.windowCovering, true⟩],
            extraAccs := st.extraAccs ++
              [⟨.bridgedAccessory, [.accessoryInformation, .windowCoveringSvc], 0⟩,
               ⟨.bridgedAccessory,
                [.accessoryInformation,
                 .inputSvc (if cfg.wc1.swap_inputs then 1 else 2)], 0⟩] }) ∧
    (cfg.wc1.in_mode = InMode.detached →
      CreateComponents cfg env st =
        { st with
            comps := st.comps ++
              [⟨.hapInput 1, false⟩, ⟨.hapInput 2, false⟩,
               ⟨.windowCovering, true⟩],
            extraAccs := st.extraAccs ++
              [⟨.bridgedAccessory, [.accessoryInformation, .windowCoveringSvc], 0⟩,
               ⟨.bridgedAccessory, [.accessoryInformation, .inputSvc 1], 0⟩,
               ⟨.bridgedAccessory, [.accessoryInformation, .inputSvc 2], 0⟩] }) := by
  refine ⟨fun him => ?_, fun him => ?_, fun him => ?_⟩
  · rcases him with him | him <;>
      simp [CreateComponents, hm, he, him, Accessory.setCat, Accessory.addService]
  · cases hsw : cfg.wc1.swap_inputs <;>
      simp [CreateComponents, CreateHAPInput, hm, he, him, hsw]
  · simp [CreateComponents, CreateHAPInput, hm, he, him]

/-- C1 witness: detached sub-mode from the start-up state exposes the
covering accessory and both pass-through inputs. -/
theorem C1_roller_submode_accessory_exposure_witness :
    CreateComponents ⟨1, ⟨.detached, false⟩, false, 0, 0⟩ ⟨true, true⟩ ccState0 =
      ⟨[⟨.hapInput 1, false⟩, ⟨.hapInput 2, false⟩, ⟨.windowCovering, true⟩],
       ⟨.bridge, [], 0⟩,
       [⟨.bridgedAccessory, [.accessoryInformation, .windowCoveringSvc], 0⟩,
        ⟨.bridgedAccessory, [.accessoryInformation, .inputSvc 1], 0⟩,
        ⟨.bridgedAccessory, [.accessoryInformation, .inputSvc 2], 0⟩]⟩ :=
  (C1_roller_submode_accessory_exposure ⟨1, ⟨.detached, false⟩, false, 0, 0⟩
    ⟨true, true⟩ ccState0 rfl rfl).2.2 rfl

/-- C2: in normal mode with the legacy flag set and neither switch sub-mode
detached (value 3), the switches are created in reversed order with
`to_pri_acc = true` and the list is reversed afterward, so the final order is
[switch 1, switch 2] — the same externally observed order as the non-legacy
path (which uses `to_pri_acc = false`); only the `to_pri_acc` binding
differs. -/
theorem C2_legacy_layout_order_preserved (cfg : SysConfig) (env : CCEnv)
    (st : CCState) (hm1 : cfg.shelly_mode ≠ 1) (hm2 : cfg.shelly_mode ≠ 2)
    (hl : cfg.legacy_hap_layout = true) (h1 : cfg.sw1_in_mode ≠ 3)
    (h2 : cfg.sw2_in_mode ≠ 3) (hc : st.comps = []) :
    (CreateComponents cfg env st).comps =
      [⟨.hapSwitch 1 true, false⟩, ⟨.hapSwitch 2 true, false⟩] ∧
    (CreateComponents { cfg with legacy_hap_layout := false } env st).comps =
      [⟨.hapSwitch 1 false, false⟩, ⟨.hapSwitch 2 false, false⟩] ∧
    (CreateComponents cfg env st).comps.map (fun c => c.kind.sansToPri) =
      (CreateComponents { cfg with legacy_hap_layout := false } env st).comps.map
        (fun c => c.kind.sansToPri) := by
  have e1 : (cfg.sw1_in_mode != 3) = true := by simpa using h1
  have e2 : (cfg.sw2_in_mode != 3) = true := by simpa using h2
  refine ⟨?_, ?_, ?_⟩
  · simp [CreateComponents, CreateHAPSwitch, hm1, hm2, hl, e1, e2, hc]
  · simp [CreateComponents, CreateHAPSwitch, hm1, hm2, hc]
  · simp [CreateComponents, CreateHAPSwitch, hm1, hm2, hl, e1, e2, hc,
      CompKind.sansToPri]

/-- C2 witness: a concrete legacy configuration yields [switch 1, switch 2]
with `to_pri_acc = true`, matching the non-legacy order. -/
theorem C2_legacy_layout_order_preserved_witness :
    (CreateComponents ⟨0, ⟨.separateMomentary, false⟩, true, 0, 0⟩ ⟨true, true⟩
        ccState0).comps =
      [⟨.hapSwitch 1 true, false⟩, ⟨.hapSwitch 2 true, false⟩] :=
  (C2_legacy_layout_order_preserved ⟨0, ⟨.separateMomentary, false⟩, true, 0, 0⟩
    ⟨true, true⟩ ccState0 (by decide) (by decide) rfl (by decide) (by decide)
    rfl).1

/-- A roller-shutter configuration in the `single` sub-mode without input
swapping, used as a concrete input. -/
def cfgRollerSingle : SysConfig := ⟨1, ⟨.single, false⟩, false, 0, 0⟩

/-- A component environment in which every construction succeeds. -/
def envCCAllOk : CCEnv := ⟨true, true⟩

/-- C5 counterexample: in roller-shutter mode, sub-mode `single`, with a
successful run from the start-up state, exactly one component is primary but
the accessory at index 0 has its category set zero times, not once — the
claim's "category set exactly once for every configuration" fails. -/
theorem C5_counterexample_single_submode :
    (CreateComponents cfgRollerSingle envCCAllOk ccState0).comps.countP
        (fun c => c.primary) = 1 ∧
    ¬ (CreateComponents cfgRollerSingle envCCAllOk ccState0).priAcc.setCategoryCount
        = 1 := by
  decide

/-- C5 (amended): after a successful `CreateComponents` run in roller-shutter
or garage-door mode from a clean bridge state, exactly one component has
`primary = true`; the accessory at index 0 has its category set exactly once
when the primary service is attached to it (the separate sub-modes, and
garage-door mode), and zero times in the single/detached sub-modes, where a
newly created bridged accessory carries the category instead.  (Normal mode
delegates primary/category handling to the opaque `CreateHAPSwitch`
collaborator and is outside this statement.) -/
theorem C5_primary_unique_category_once (cfg : SysConfig) (env : CCEnv)
    (st : CCState) (hc : st.comps = []) (hcat : st.priAcc.setCategoryCount = 0)
    (hm : cfg.shelly_mode = 1 ∧ env.wcOk = true ∨
          cfg.shelly_mode = 2 ∧ env.gdoOk = true) :
    (CreateComponents cfg env st).comps.countP (fun c => c.primary) = 1 ∧
    (CreateComponents cfg env st).priAcc.setCategoryCount =
      (if cfg.shelly_mode = 1 ∧ (cfg.wc1.in_mode = InMode.single ∨
            cfg.wc1.in_mode = InMode.detached) then 0 else 1) := by
  rcases hm with ⟨hm, he⟩ | ⟨hm, he⟩
  · cases him : cfg.wc1.in_mode <;>
      cases hsw : cfg.wc1.swap_inputs <;>
      simp [CreateComponents, CreateHAPInput, hm, he, him, hsw, hc, hcat,
        Accessory.setCat, Accessory.addService]
  · have hm1 : cfg.shelly_mode ≠ 1 := by rw [hm]; decide
    simp [CreateComponents, hm, hm1, he, hc, hcat, Accessory.setCat,
      Accessory.addService]

/-- C5 witness: a successful garage-door run has exactly one primary
component and sets the bridge-primary accessory's category exactly once. -/
theorem C5_primary_unique_category_once_witness :
    (CreateComponents ⟨2, ⟨.separateMomentary, false⟩, false, 0, 0⟩ envCCAllOk
        ccState0).comps.countP (fun c => c.primary) = 1 ∧
    (CreateComponents ⟨2, ⟨.separateMomentary, false⟩, false, 0, 0⟩ envCCAllOk
        ccState0).priAcc.setCategoryCount = 1 :=
  C5_primary_unique_category_once ⟨2, ⟨.separateMomentary, false⟩, false, 0, 0⟩
    envCCAllOk ccState0 rfl rfl (Or.inr ⟨rfl, rfl⟩)

/-- C6: branch failure is atomic — in roller-shutter mode, if window-covering
construction or `Init` fails, `CreateComponents` leaves the whole state
untouched (no component appended, no accessory mutated); likewise in
garage-door mode for the garage-door opener. -/
theorem C6_failed_branch_leaves_state_untouched (cfg : SysConfig) (env : CCEnv)
    (st : CCState) :
    (cfg.shelly_mode = 1 → env.wcOk = false → CreateComponents cfg env st = st) ∧
    (cfg.shelly_mode = 2 → env.gdoOk = false → CreateComponents cfg env st = st) := by
  constructor
  · intro h1 h2
    simp [CreateComponents, h1, h2]
  · intro h1 h2
    have hm1 : cfg.shelly_mode ≠ 1 := by rw [h1]; decide
    simp [CreateComponents, h1, hm1, h2]

/-- C6 witness: a failing window-covering construction in roller-shutter mode
returns the start-up state unchanged. -/
theorem C6_failed_branch_leaves_state_untouched_witness :
    CreateComponents ⟨1, ⟨.single, false⟩, false, 0, 0⟩ ⟨false, true⟩ ccState0 =
      ccState0 :=
  (C6_failed_branch_leaves_state_untouched ⟨1, ⟨.single, false⟩, false, 0, 0⟩
    ⟨false, true⟩ ccState0).1 rfl rfl

end Shelly25
